import Mathlib

/-!
# Verification of the selfcare_ai_service caching-and-routing core

Shallow embedding of the Rust sources under `src/`:
* `src/utils/hashing.rs`        → `cache_key`
* `src/services/model_service.rs` → `ModelService.analyze_complexity`
* `src/services/cache_service.rs` → `CacheState`, `CacheService.get`, memory tier
* `src/repositories/cache_repo.rs` → `CacheRepo.get` / `CacheRepo.set`
* `src/services/ai_service.rs`  → `AIService.local_model_generate`,
  `AIService.enrich_and_generate`, `AIService.cloud_model_generate`
* `src/handlers/chat.rs`        → `chatCacheKey`, `routeChat`, `emitTokens`

Machine integers are modelled as `Nat`/`Int`; timestamps are unix seconds
(`Int`); `f32` values that only flow through `to_string`/comparison are
modelled as `ℚ`.  External library functions (`md5`, `serde_json`
parse/render, the HTTP client, the inference engine, the search backend)
are passed in as explicit function parameters or environment fields.
-/

namespace SelfcareAI

/-- Modelled from the spec: `ChatRequest` (the `crate::models` module is not
under `src/`); §3 of the spec lists its fields.  The UUID type is modelled
as `Nat`, `f32` as `ℚ`. -/
structure ChatRequest where
  message : String
  conversation_id : Option Nat
  model : Option String
  temperature : Option ℚ
  max_tokens : Option Nat
  cache_bypass : Option Bool
  stream : Option Bool
deriving Repr, DecidableEq

/-- Modelled from the spec: `ChatResponse` (the `crate::models` module is not
under `src/`); §3 of the spec lists its fields. -/
structure ChatResponse where
  response : String
  conversation_id : Nat
  cache_hit : Bool
  cache_source : Option String
  timestamp : Int
deriving Repr, DecidableEq

/-- `src/services/model_service.rs`: `Complexity`. -/
inductive Complexity where
  | Low
  | Medium
  | High
deriving Repr, DecidableEq

/-- `src/services/model_service.rs`: `ModelService::analyze_complexity`.
`request.message.chars().count()` is the character count, i.e.
`String.length`. -/
def ModelService.analyze_complexity (request : ChatRequest) : Complexity :=
  let length := request.message.length
  if length < 200 then Complexity.Low
  else if length < 800 then Complexity.Medium
  else Complexity.High

/-- `src/utils/hashing.rs`: `cache_key` pushes every part into one string and
hashes the concatenation.  The md5 digest (`md5` crate, external) is the
`digest` parameter; the collision structure of `cache_key` is independent
of it. -/
def cache_key (digest : String → String) (parts : List String) : String :=
  digest (String.join parts)

/-- The fields of `AiConfig` (src/config.rs) that the chat handler reads
when resolving request defaults. -/
structure AiConfig where
  model_name : String
  temperature : ℚ
  max_tokens : Nat
deriving Repr, DecidableEq

/-- `src/handlers/chat.rs` lines 28–41: resolution of `model_name`,
`temperature`, `max_tokens` from the request (falling back to config) and
the cache-key computation over the four fields. -/
def chatCacheKey (digest : String → String) (cfg : AiConfig) (req : ChatRequest) : String :=
  let model_name := req.model.getD cfg.model_name
  let temperature := req.temperature.getD cfg.temperature
  let max_tokens := req.max_tokens.getD cfg.max_tokens
  cache_key digest [req.message, model_name, toString temperature, toString max_tokens]

/-- A request whose message is `n` copies of a fixed character; used to
exercise the classifier boundaries. -/
def boundaryReq (n : Nat) : ChatRequest :=
  { message := String.mk (List.replicate n 'a')
    conversation_id := none
    model := none
    temperature := none
    max_tokens := none
    cache_bypass := none
    stream := none }

/-- C2: the complexity classifier is a pure function of the message's
character count: every length < 200 is `Low`, every length in 200..=799 is
`Medium`, and every length ≥ 800 is `High`. -/
theorem C2_classifier_thresholds :
    (∀ r : ChatRequest, r.message.length < 200 →
      ModelService.analyze_complexity r = Complexity.Low) ∧
    (∀ r : ChatRequest, 200 ≤ r.message.length → r.message.length ≤ 799 →
      ModelService.analyze_complexity r = Complexity.Medium) ∧
    (∀ r : ChatRequest, 800 ≤ r.message.length →
      ModelService.analyze_complexity r = Complexity.High) := by
  refine ⟨fun r h => ?_, fun r h1 h2 => ?_, fun r h => ?_⟩ <;>
    simp only [ModelService.analyze_complexity] <;>
    repeat first
      | rfl
      | rw [if_pos (by omega)]
      | rw [if_neg (by omega)]

set_option maxRecDepth 8000 in
/-- Boundary instances of C2: lengths 199 / 200 / 799 / 800 / 801 classify
as Low / Medium / Medium / High / High. -/
theorem C2_classifier_thresholds_witness :
    ModelService.analyze_complexity (boundaryReq 199) = Complexity.Low ∧
    ModelService.analyze_complexity (boundaryReq 200) = Complexity.Medium ∧
    ModelService.analyze_complexity (boundaryReq 799) = Complexity.Medium ∧
    ModelService.analyze_complexity (boundaryReq 800) = Complexity.High ∧
    ModelService.analyze_complexity (boundaryReq 801) = Complexity.High :=
  ⟨C2_classifier_thresholds.1 (boundaryReq 199) (by decide),
   C2_classifier_thresholds.2.1 (boundaryReq 200) (by decide) (by decide),
   C2_classifier_thresholds.2.1 (boundaryReq 799) (by decide) (by decide),
   C2_classifier_thresholds.2.2 (boundaryReq 800) (by decide),
   C2_classifier_thresholds.2.2 (boundaryReq 801) (by decide)⟩

/-- C6: the cache key depends on exactly `(message, model, temperature,
max_tokens)`: two requests agreeing on those four fields get the same key
(for any digest and config), regardless of `conversation_id`,
`cache_bypass` and `stream`. -/
theorem C6_cache_key_determined_by_four_fields
    (digest : String → String) (cfg : AiConfig) (r1 r2 : ChatRequest)
    (hmsg : r1.message = r2.message)
    (hmodel : r1.model = r2.model)
    (htemp : r1.temperature = r2.temperature)
    (htok : r1.max_tokens = r2.max_tokens) :
    chatCacheKey digest cfg r1 = chatCacheKey digest cfg r2 := by
  simp only [chatCacheKey, cache_key, hmsg, hmodel, htemp, htok]

/-- Witness for C6: two requests differing only in `conversation_id`,
`cache_bypass` and `stream` produce the same key. -/
theorem C6_cache_key_determined_by_four_fields_witness :
    chatCacheKey (fun s => s) ⟨"m", 1/2, 64⟩
      ⟨"hi", none, some "m", some (7/10), some 10, none, none⟩ =
    chatCacheKey (fun s => s) ⟨"m", 1/2, 64⟩
      ⟨"hi", some 42, some "m", some (7/10), some 10, some true, some true⟩ :=
  C6_cache_key_determined_by_four_fields (fun s => s) ⟨"m", 1/2, 64⟩
    ⟨"hi", none, some "m", some (7/10), some 10, none, none⟩
    ⟨"hi", some 42, some "m", some (7/10), some 10, some true, some true⟩
    rfl rfl rfl rfl

/-- C7: the fingerprinter concatenates its parts without a delimiter, so the
distinct field lists `["ab","c"]` and `["a","bc"]` hash to the same key,
whatever digest function the md5 library implements. -/
theorem C7_delimiterless_collision :
    (["ab", "c"] ≠ ["a", "bc"]) ∧
    ∀ digest : String → String,
      cache_key digest ["ab", "c"] = cache_key digest ["a", "bc"] := by
  refine ⟨by decide, fun digest => ?_⟩
  show digest (String.join ["ab", "c"]) = digest (String.join ["a", "bc"])
  exact congrArg digest (by decide)

/-- Witness for C7 at a concrete digest function. -/
theorem C7_delimiterless_collision_witness :
    cache_key (fun s => s ++ "!") ["ab", "c"]
      = cache_key (fun s => s ++ "!") ["a", "bc"] :=
  C7_delimiterless_collision.2 (fun s => s ++ "!")

/-! ## Stream emitter (`src/handlers/chat.rs`, `stream_text_response`) -/

/-- Worker for `splitWhitespace`: walks the characters, accumulating the
current word (reversed) and cutting at whitespace. -/
def splitWsAux : List Char → List Char → List String
  | [], acc => if acc.isEmpty then [] else [String.mk acc.reverse]
  | c :: cs, acc =>
    if c.isWhitespace then
      if acc.isEmpty then splitWsAux cs []
      else String.mk acc.reverse :: splitWsAux cs []
    else splitWsAux cs (c :: acc)

/-- Rust's `str::split_whitespace`: maximal runs of non-whitespace
characters, with no empty words. -/
def splitWhitespace (s : String) : List String :=
  splitWsAux s.data []

/-- The token for each `(index, word)` pair of the `enumerate` loop in
`stream_text_response`: the first word unprefixed, later words prefixed
with one space. -/
def tokensOfWords (words : List String) : List String :=
  words.enum.map (fun p => if p.1 == 0 then p.2 else " " ++ p.2)

/-- `stream_text_response`: the `response` payloads of the non-`done`
objects emitted for a response string (the terminal object's `response` is
empty and carries only control fields). -/
def emitTokens (response : String) : List String :=
  tokensOfWords (splitWhitespace response)

/-- Concatenation of a token list, as performed by a client reassembling
the stream. -/
def concatTokens : List String → String
  | [] => ""
  | t :: ts => t ++ concatTokens ts

/-- Joining words with single spaces: the shape of a string whose words
are separated by exactly one space, with no leading or trailing
whitespace. -/
def singleSpaceJoin : List String → String
  | [] => ""
  | w :: ws => w ++ concatTokens (ws.map (" " ++ ·))

theorem concatTokens_enumFrom (ws : List String) (n : Nat) (h : n ≠ 0) :
    concatTokens ((ws.enumFrom n).map
        (fun p => if p.1 == 0 then p.2 else " " ++ p.2)) =
    concatTokens (ws.map (" " ++ ·)) := by
  induction ws generalizing n with
  | nil => rfl
  | cons w ws ih =>
    have hn : (n == 0) = false := by
      cases n with
      | zero => exact absurd rfl h
      | succ m => rfl
    simp only [List.enumFrom, List.map, concatTokens, hn, Bool.false_eq_true, if_false]
    rw [ih (n + 1) (Nat.succ_ne_zero n)]

theorem concatTokens_tokensOfWords (ws : List String) :
    concatTokens (tokensOfWords ws) = singleSpaceJoin ws := by
  cases ws with
  | nil => rfl
  | cons w ws =>
    show concatTokens ((if (0 == 0) then w else " " ++ w) ::
        (ws.enumFrom 1).map (fun p => if p.1 == 0 then p.2 else " " ++ p.2)) =
      singleSpaceJoin (w :: ws)
    simp only [concatTokens, singleSpaceJoin]
    rw [concatTokens_enumFrom ws 1 one_ne_zero]
    simp

/-- C3 (counterexample): the emitter splits on `split_whitespace`, which
collapses runs of whitespace, so on `"a  b"` (two spaces) the reassembled
stream is `"a b"`, not the original text. -/
theorem C3_stream_reconstruction_counterexample :
    concatTokens (emitTokens "a  b") ≠ "a  b" := by decide

/-- C3 (amended): for every response string whose words are separated by
single spaces with no leading or trailing whitespace (i.e. the string
equals the single-space join of its whitespace-split words), concatenating
all emitted tokens reproduces the original response text exactly. -/
theorem C3_stream_reconstruction_amended (r : String)
    (h : r = singleSpaceJoin (splitWhitespace r)) :
    concatTokens (emitTokens r) = r := by
  conv_rhs => rw [h]
  exact concatTokens_tokensOfWords (splitWhitespace r)

/-- Witness for the amended C3 at a concrete three-word response. -/
theorem C3_stream_reconstruction_amended_witness :
    "hello streaming world" = singleSpaceJoin (splitWhitespace "hello streaming world") ∧
    concatTokens (emitTokens "hello streaming world") = "hello streaming world" :=
  ⟨by decide, C3_stream_reconstruction_amended "hello streaming world" (by decide)⟩

/-! ## Cache tiers and orchestrator (`src/services/cache_service.rs`,
`src/repositories/cache_repo.rs`, `src/repositories/redis_repo.rs`)

JSON payloads (`serde_json::Value`) are modelled by the `Json` inductive;
`serde_json::from_str` is an external library function and is passed to the
orchestrator as the `parse` parameter. -/

/-- Model of `serde_json::Value`. -/
inductive Json where
  | null
  | bool (b : Bool)
  | num (q : ℚ)
  | str (s : String)
  | arr (elems : List Json)
  | obj (fields : List (String × Json))

/-- `src/services/cache_service.rs`: `CacheSource`. -/
inductive CacheSource where
  | Memory
  | Redis
  | Sqlite
deriving Repr, DecidableEq

/-- `src/services/cache_service.rs`: `MemoryEntry` (value plus absolute
expiry). -/
structure MemoryEntry where
  value : Json
  expires_at : Int

/-- `src/services/cache_service.rs`: `CacheStats` counters. -/
structure CacheStats where
  total_requests : Nat
  memory_hits : Nat
  redis_hits : Nat
  sqlite_hits : Nat
deriving Repr, DecidableEq

/-- `src/repositories/cache_repo.rs`: one row of the `ai_cache` table
(`response_json`, `created_at`, `expires_at`, `hits`); the `cache_key`
column is the association-list key. -/
structure SqliteRow where
  value_json : String
  created_at : Int
  expires_at : Int
  hits : Nat
deriving Repr, DecidableEq

/-- The full `CacheService` state: the LRU memory tier (most recently used
first), the optional Redis store, the optional SQLite store, the stats and
the settings the tiers read (`memory_ttl_seconds`, memory capacity).
`none` for a tier models the unconfigured/unreachable backend. -/
structure CacheState where
  memory_ttl_seconds : Int
  capacity : Nat
  memory : List (String × MemoryEntry)
  redis : Option (List (String × String))
  sqlite : Option (List (String × SqliteRow))
  stats : CacheStats

/-- Value of a key in the LRU map (`LruCache::peek`-like lookup). -/
def lruLookup (entries : List (String × MemoryEntry)) (key : String) :
    Option MemoryEntry :=
  (entries.find? (fun p => p.1 == key)).map (fun p => p.2)

/-- `LruCache::get`: on a hit the entry moves to the front (most recently
used). -/
def lruGet (entries : List (String × MemoryEntry)) (key : String) :
    Option MemoryEntry × List (String × MemoryEntry) :=
  match lruLookup entries key with
  | some e => (some e, (key, e) :: entries.eraseP (fun p => p.1 == key))
  | none => (none, entries)

/-- `LruCache::pop`: removes the entry for the key. -/
def lruPop (entries : List (String × MemoryEntry)) (key : String) :
    List (String × MemoryEntry) :=
  entries.eraseP (fun p => p.1 == key)

/-- `LruCache::put`: insert/update at the front; if the map then exceeds
its capacity the least recently used entry (the back) is evicted. -/
def lruPut (capacity : Nat) (entries : List (String × MemoryEntry))
    (key : String) (e : MemoryEntry) : List (String × MemoryEntry) :=
  let updated := (key, e) :: entries.eraseP (fun p => p.1 == key)
  if capacity < updated.length then updated.dropLast else updated

/-- `CacheService::get_from_memory`: a hit requires `expires_at > now`; any
other outcome pops the key (lazy expiry). -/
def get_from_memory (s : CacheState) (key : String) (now : Int) :
    Option Json × CacheState :=
  match lruGet s.memory key with
  | (some entry, touched) =>
    if now < entry.expires_at then (some entry.value, { s with memory := touched })
    else (none, { s with memory := lruPop touched key })
  | (none, touched) => (none, { s with memory := lruPop touched key })

/-- `CacheService::set_memory`: put with `expires_at = now +
memory_ttl_seconds`. -/
def set_memory (s : CacheState) (key : String) (value : Json) (now : Int) :
    CacheState :=
  { s with memory :=
      lruPut s.capacity s.memory key ⟨value, now + s.memory_ttl_seconds⟩ }

/-- `RedisRepo::get` as seen by the orchestrator: `none` when the tier is
absent, errored, or has no value for the key. -/
def redisLookup (redis : Option (List (String × String))) (key : String) :
    Option String :=
  match redis with
  | some store => (store.find? (fun p => p.1 == key)).map (fun p => p.2)
  | none => none

/-- `CacheRepo::get`: returns the row only if `expires_at > now`, and as a
side effect updates the row's `hits` to the fetched value plus one; the
returned record carries the incremented count. -/
def CacheRepo.get (db : List (String × SqliteRow)) (key : String) (now : Int) :
    Option (String × SqliteRow) × List (String × SqliteRow) :=
  match db.find? (fun r => r.1 == key && now < r.2.expires_at) with
  | some (k, row) =>
    (some (k, { row with hits := row.hits + 1 }),
     db.map (fun r =>
       if r.1 == key then (r.1, { r.2 with hits := row.hits + 1 }) else r))
  | none => (none, db)

/-- `CacheService::get`: bump `total_requests`, probe memory, then Redis
(parse the stored string, count the hit, promote into memory), then SQLite
(same, keyed by the returned record's key), else miss.  An unparseable
tier value falls through to the next tier. -/
def CacheService.get (parse : String → Option Json) (s : CacheState)
    (key : String) (now : Int) : Option (Json × CacheSource) × CacheState :=
  let s0 := { s with stats :=
    { s.stats with total_requests := s.stats.total_requests + 1 } }
  match get_from_memory s0 key now with
  | (some value, s1) =>
    (some (value, CacheSource.Memory),
     { s1 with stats := { s1.stats with memory_hits := s1.stats.memory_hits + 1 } })
  | (none, s1) =>
    match (redisLookup s1.redis key).bind parse with
    | some json =>
      let s2 := { s1 with stats :=
        { s1.stats with redis_hits := s1.stats.redis_hits + 1 } }
      (some (json, CacheSource.Redis), set_memory s2 key json now)
    | none =>
      match s1.sqlite with
      | some db =>
        match CacheRepo.get db key now with
        | (some (k, record), db2) =>
          let s2 := { s1 with sqlite := some db2 }
          match parse record.value_json with
          | some json =>
            let s3 := { s2 with stats :=
              { s2.stats with sqlite_hits := s2.stats.sqlite_hits + 1 } }
            (some (json, CacheSource.Sqlite), set_memory s3 k json now)
          | none => (none, s2)
        | (none, db2) => (none, { s1 with sqlite := some db2 })
      | none => (none, s1)

/-! ## Memory-tier lemmas -/

theorem eraseP_of_lruLookup_none (entries : List (String × MemoryEntry))
    (key : String) (h : lruLookup entries key = none) :
    entries.eraseP (fun p => p.1 == key) = entries := by
  apply List.eraseP_of_forall_not
  intro a ha
  have hfind : entries.find? (fun p => p.1 == key) = none :=
    Option.map_eq_none'.mp h
  exact List.find?_eq_none.mp hfind a ha

theorem lruLookup_head (key : String) (e : MemoryEntry)
    (tail : List (String × MemoryEntry)) :
    lruLookup ((key, e) :: tail) key = some e := by
  simp [lruLookup, List.find?]

theorem lruLookup_lruPut (capacity : Nat)
    (entries : List (String × MemoryEntry)) (key : String) (e : MemoryEntry)
    (hcap : 1 ≤ capacity) :
    lruLookup (lruPut capacity entries key e) key = some e := by
  unfold lruPut
  by_cases hlen :
      capacity < ((key, e) :: entries.eraseP (fun p => p.1 == key)).length
  · rw [if_pos hlen]
    cases hrest : entries.eraseP (fun p => p.1 == key) with
    | nil =>
      rw [hrest] at hlen
      simp at hlen
      omega
    | cons r rs =>
      have hdl : ((key, e) :: r :: rs).dropLast = (key, e) :: (r :: rs).dropLast := rfl
      rw [hdl]
      exact lruLookup_head key e ((r :: rs).dropLast)
  · rw [if_neg hlen]
    exact lruLookup_head key e (entries.eraseP (fun p => p.1 == key))

/-- After `lruPut` on a key absent from the memory map, every entry behind
the front one still misses the key. -/
theorem lruPut_fresh_shape (capacity : Nat)
    (entries : List (String × MemoryEntry)) (key : String) (e : MemoryEntry)
    (hcap : 1 ≤ capacity) (h : lruLookup entries key = none) :
    ∃ tail, lruPut capacity entries key e = (key, e) :: tail ∧
      lruLookup tail key = none := by
  unfold lruPut
  rw [eraseP_of_lruLookup_none entries key h]
  by_cases hlen : capacity < ((key, e) :: entries).length
  · rw [if_pos hlen]
    cases entries with
    | nil =>
      simp at hlen
      omega
    | cons r rs =>
      refine ⟨(r :: rs).dropLast, rfl, ?_⟩
      rw [lruLookup, Option.map_eq_none', List.find?_eq_none]
      intro x hx
      have hmem : x ∈ r :: rs := List.Sublist.mem hx (List.dropLast_sublist _)
      have hfind : (r :: rs).find? (fun p => p.1 == key) = none :=
        Option.map_eq_none'.mp h
      exact List.find?_eq_none.mp hfind x hmem
  · rw [if_neg hlen]
    exact ⟨entries, rfl, h⟩

/-- C9: an entry written into the Memory Tier at time `now` with TTL
`memory_ttl_seconds` is a hit at every read time strictly before
`now + TTL`, and at every read time ≥ `now + TTL` it is a miss that also
removes the entry from the tier. -/
theorem C9_memory_tier_expiry (s : CacheState) (key : String) (v : Json)
    (now : Int) (hcap : 1 ≤ s.capacity)
    (hfresh : lruLookup s.memory key = none) :
    (∀ t : Int, t < now + s.memory_ttl_seconds →
      (get_from_memory (set_memory s key v now) key t).1 = some v) ∧
    (∀ t : Int, now + s.memory_ttl_seconds ≤ t →
      (get_from_memory (set_memory s key v now) key t).1 = none ∧
      lruLookup ((get_from_memory (set_memory s key v now) key t).2).memory key
        = none) := by
  obtain ⟨tail, hshape, htail⟩ :=
    lruPut_fresh_shape s.capacity s.memory key ⟨v, now + s.memory_ttl_seconds⟩
      hcap hfresh
  have hmem : (set_memory s key v now).memory =
      (key, ⟨v, now + s.memory_ttl_seconds⟩) :: tail := by
    simp only [set_memory]
    exact hshape
  have hget : lruGet (set_memory s key v now).memory key =
      (some ⟨v, now + s.memory_ttl_seconds⟩,
       (key, (⟨v, now + s.memory_ttl_seconds⟩ : MemoryEntry)) ::
         ((key, (⟨v, now + s.memory_ttl_seconds⟩ : MemoryEntry)) :: tail).eraseP
           (fun p => p.1 == key)) := by
    rw [hmem]
    unfold lruGet
    rw [lruLookup_head]
  have herase :
      ((key, (⟨v, now + s.memory_ttl_seconds⟩ : MemoryEntry)) :: tail).eraseP
        (fun p => p.1 == key) = tail := by
    simp [List.eraseP_cons]
  constructor
  · intro t ht
    unfold get_from_memory
    rw [hget]
    simp only [if_pos ht]
  · intro t ht
    unfold get_from_memory
    rw [hget]
    have hnot : ¬ t < now + s.memory_ttl_seconds := by omega
    simp only [if_neg hnot]
    refine ⟨by trivial, ?_⟩
    simp only [lruPop, herase]
    simpa using htail

/-! ## Orchestrator stepping lemmas -/

/-- `CacheService::get` when the memory tier holds a live entry: memory
hit, entry touched to the front, no other tier consulted. -/
theorem get_eq_of_memory_hit (parse : String → Option Json) (s : CacheState)
    (key : String) (e : MemoryEntry) (now : Int)
    (h : lruLookup s.memory key = some e) (ht : now < e.expires_at) :
    CacheService.get parse s key now =
      (some (e.value, CacheSource.Memory),
       { s with
           memory := (key, e) :: s.memory.eraseP (fun p => p.1 == key),
           stats := { s.stats with
             total_requests := s.stats.total_requests + 1,
             memory_hits := s.stats.memory_hits + 1 } }) := by
  unfold CacheService.get get_from_memory lruGet
  simp only [h, if_pos ht]

/-- `CacheService::get` when memory misses and the Redis tier yields a
parseable value: redis hit, promotion into memory. -/
theorem get_eq_of_redis_hit (parse : String → Option Json) (s : CacheState)
    (key rs : String) (v : Json) (now : Int)
    (hm : lruLookup s.memory key = none)
    (hr : redisLookup s.redis key = some rs)
    (hp : parse rs = some v) :
    CacheService.get parse s key now =
      (some (v, CacheSource.Redis),
       set_memory
         { s with stats := { s.stats with
             total_requests := s.stats.total_requests + 1,
             redis_hits := s.stats.redis_hits + 1 } }
         key v now) := by
  unfold CacheService.get get_from_memory lruGet
  simp only [hm, lruPop, eraseP_of_lruLookup_none s.memory key hm, hr,
    Option.some_bind, hp]

/-- `CacheService::get` when memory misses, the Redis probe produces no
parseable value, and the SQLite tier holds a live row whose payload
parses: sqlite hit, row hit-count bumped, promotion into memory. -/
theorem get_eq_of_sqlite_hit (parse : String → Option Json) (s : CacheState)
    (key : String) (db : List (String × SqliteRow)) (row : SqliteRow)
    (v : Json) (now : Int)
    (hm : lruLookup s.memory key = none)
    (hr : (redisLookup s.redis key).bind parse = none)
    (hs : s.sqlite = some db)
    (hrow : db.find? (fun r => r.1 == key && now < r.2.expires_at)
      = some (key, row))
    (hp : parse row.value_json = some v) :
    CacheService.get parse s key now =
      (some (v, CacheSource.Sqlite),
       set_memory
         { s with
             sqlite := some (db.map (fun r =>
               if r.1 == key then (r.1, { r.2 with hits := row.hits + 1 })
               else r)),
             stats := { s.stats with
               total_requests := s.stats.total_requests + 1,
               sqlite_hits := s.stats.sqlite_hits + 1 } }
         key v now) := by
  unfold CacheService.get get_from_memory lruGet CacheRepo.get
  simp only [hm, lruPop, eraseP_of_lruLookup_none s.memory key hm, hr, hs,
    hrow, hp]

/-- `CacheService::get` when memory misses, the Redis probe produces no
parseable value, and the SQLite tier holds a live row whose payload does
NOT parse: overall miss, but the row's hit count was still bumped by the
repository (evidence the tier was probed); no stats counter moves and no
promotion happens. -/
theorem get_eq_of_sqlite_unparseable (parse : String → Option Json)
    (s : CacheState) (key : String) (db : List (String × SqliteRow))
    (row : SqliteRow) (now : Int)
    (hm : lruLookup s.memory key = none)
    (hr : (redisLookup s.redis key).bind parse = none)
    (hs : s.sqlite = some db)
    (hrow : db.find? (fun r => r.1 == key && now < r.2.expires_at)
      = some (key, row))
    (hp : parse row.value_json = none) :
    CacheService.get parse s key now =
      (none,
       { s with
           sqlite := some (db.map (fun r =>
             if r.1 == key then (r.1, { r.2 with hits := row.hits + 1 })
             else r)),
           stats := { s.stats with
             total_requests := s.stats.total_requests + 1 } }) := by
  unfold CacheService.get get_from_memory lruGet CacheRepo.get
  simp only [hm, lruPop, eraseP_of_lruLookup_none s.memory key hm, hr, hs,
    hrow, hp]

/-- C1: `get` probes Memory first, then Redis, then SQLite.  A Redis hit
promotes the value into the Memory Tier (first conjunct); a value live
only in the SQLite tier is returned as a sqlite hit and promoted, and a
second `get` within the memory TTL is served from the Memory Tier with the
SQLite store and its hit counter untouched (second conjunct). -/
theorem C1_tier_promotion (parse : String → Option Json) :
    (∀ (s : CacheState) (key rs : String) (v : Json) (now : Int),
      1 ≤ s.capacity →
      lruLookup s.memory key = none →
      redisLookup s.redis key = some rs →
      parse rs = some v →
      (CacheService.get parse s key now).1 = some (v, CacheSource.Redis) ∧
      lruLookup ((CacheService.get parse s key now).2).memory key =
        some ⟨v, now + s.memory_ttl_seconds⟩) ∧
    (∀ (s : CacheState) (key : String) (db : List (String × SqliteRow))
        (row : SqliteRow) (v : Json) (now t : Int),
      1 ≤ s.capacity →
      lruLookup s.memory key = none →
      redisLookup s.redis key = none →
      s.sqlite = some db →
      db.find? (fun r => r.1 == key && now < r.2.expires_at)
        = some (key, row) →
      parse row.value_json = some v →
      t < now + s.memory_ttl_seconds →
      (CacheService.get parse s key now).1 = some (v, CacheSource.Sqlite) ∧
      (CacheService.get parse (CacheService.get parse s key now).2 key t).1
        = some (v, CacheSource.Memory) ∧
      ((CacheService.get parse (CacheService.get parse s key now).2 key t).2).sqlite
        = ((CacheService.get parse s key now).2).sqlite ∧
      ((CacheService.get parse
          (CacheService.get parse s key now).2 key t).2).stats.sqlite_hits
        = ((CacheService.get parse s key now).2).stats.sqlite_hits) := by
  constructor
  · intro s key rs v now hcap hm hr hp
    rw [get_eq_of_redis_hit parse s key rs v now hm hr hp]
    exact ⟨rfl, lruLookup_lruPut _ _ _ _ hcap⟩
  · intro s key db row v now t hcap hm hr hs hrow hp ht
    have hbind : (redisLookup s.redis key).bind parse = none := by
      rw [hr]; rfl
    rw [get_eq_of_sqlite_hit parse s key db row v now hm hbind hs hrow hp]
    rw [get_eq_of_memory_hit parse _ key ⟨v, now + s.memory_ttl_seconds⟩ t
      (lruLookup_lruPut _ _ _ _ hcap) ht]
    exact ⟨rfl, rfl, rfl, rfl⟩

/-- C10: a stored tier value that does not parse as JSON is treated as a
miss for that tier: no hit counter moves for it, no promotion happens from
it, and probing continues.  First conjunct: unparseable Redis value, live
parseable SQLite row — the `get` still returns the sqlite hit.  Second
conjunct: both unparseable — the `get` returns a miss (not an error), with
only `total_requests` bumped and the SQLite row's own `hits` column bumped
by the probe. -/
theorem C10_unparseable_value_is_tier_miss (parse : String → Option Json) :
    (∀ (s : CacheState) (key rs : String) (db : List (String × SqliteRow))
        (row : SqliteRow) (v : Json) (now : Int),
      lruLookup s.memory key = none →
      redisLookup s.redis key = some rs →
      parse rs = none →
      s.sqlite = some db →
      db.find? (fun r => r.1 == key && now < r.2.expires_at)
        = some (key, row) →
      parse row.value_json = some v →
      CacheService.get parse s key now =
        (some (v, CacheSource.Sqlite),
         set_memory
           { s with
               sqlite := some (db.map (fun r =>
                 if r.1 == key then (r.1, { r.2 with hits := row.hits + 1 })
                 else r)),
               stats := { s.stats with
                 total_requests := s.stats.total_requests + 1,
                 sqlite_hits := s.stats.sqlite_hits + 1 } }
           key v now)) ∧
    (∀ (s : CacheState) (key rs : String) (db : List (String × SqliteRow))
        (row : SqliteRow) (now : Int),
      lruLookup s.memory key = none →
      redisLookup s.redis key = some rs →
      parse rs = none →
      s.sqlite = some db →
      db.find? (fun r => r.1 == key && now < r.2.expires_at)
        = some (key, row) →
      parse row.value_json = none →
      CacheService.get parse s key now =
        (none,
         { s with
             sqlite := some (db.map (fun r =>
               if r.1 == key then (r.1, { r.2 with hits := row.hits + 1 })
               else r)),
             stats := { s.stats with
               total_requests := s.stats.total_requests + 1 } })) := by
  constructor
  · intro s key rs db row v now hm hr hrp hs hrow hp
    have hbind : (redisLookup s.redis key).bind parse = none := by
      rw [hr, Option.some_bind, hrp]
    exact get_eq_of_sqlite_hit parse s key db row v now hm hbind hs hrow hp
  · intro s key rs db row now hm hr hrp hs hrow hp
    have hbind : (redisLookup s.redis key).bind parse = none := by
      rw [hr, Option.some_bind, hrp]
    exact get_eq_of_sqlite_unparseable parse s key db row now hm hbind hs
      hrow hp

/-! ## Concrete cache states for the witnesses -/

/-- A cache state whose only populated tier is SQLite, holding one live
row for key `"k"`. -/
def sqliteOnlyState : CacheState :=
  { memory_ttl_seconds := 60
    capacity := 4
    memory := []
    redis := none
    sqlite := some [("k",
      { value_json := "p", created_at := 0, expires_at := 1000, hits := 0 })]
    stats := ⟨0, 0, 0, 0⟩ }

/-- A parse function recognising exactly the payload `"p"`. -/
def demoParse : String → Option Json :=
  fun str => if str = "p" then some (Json.str "v") else none

/-- A cache state whose Redis and SQLite tiers both hold a value for
`"k"` that `demoParse` rejects. -/
def unparseableState : CacheState :=
  { memory_ttl_seconds := 60
    capacity := 4
    memory := []
    redis := some [("k", "junk")]
    sqlite := some [("k",
      { value_json := "junk2", created_at := 0, expires_at := 1000, hits := 3 })]
    stats := ⟨5, 1, 1, 1⟩ }

/-- A memory-only cache state with an empty memory tier. -/
def memOnlyState : CacheState :=
  { memory_ttl_seconds := 60
    capacity := 512
    memory := []
    redis := none
    sqlite := none
    stats := ⟨0, 0, 0, 0⟩ }

/-- Witness for C1: a value living only in the SQLite tier is served as a
sqlite hit at time 10, and at time 20 the repeated `get` is a memory hit
leaving the SQLite store and its stats counter unchanged. -/
theorem C1_tier_promotion_witness :
    (CacheService.get demoParse sqliteOnlyState "k" 10).1
      = some (Json.str "v", CacheSource.Sqlite) ∧
    (CacheService.get demoParse
        (CacheService.get demoParse sqliteOnlyState "k" 10).2 "k" 20).1
      = some (Json.str "v", CacheSource.Memory) ∧
    ((CacheService.get demoParse
        (CacheService.get demoParse sqliteOnlyState "k" 10).2 "k" 20).2).sqlite
      = ((CacheService.get demoParse sqliteOnlyState "k" 10).2).sqlite ∧
    ((CacheService.get demoParse
        (CacheService.get demoParse sqliteOnlyState "k" 10).2 "k" 20).2).stats.sqlite_hits
      = ((CacheService.get demoParse sqliteOnlyState "k" 10).2).stats.sqlite_hits :=
  (C1_tier_promotion demoParse).2 sqliteOnlyState "k"
    [("k", { value_json := "p", created_at := 0, expires_at := 1000, hits := 0 })]
    { value_json := "p", created_at := 0, expires_at := 1000, hits := 0 }
    (Json.str "v") 10 20 (by decide) rfl rfl rfl rfl rfl (by decide)

/-- Witness for C10: with unparseable values in both Redis and SQLite the
`get` at time 10 is a miss whose only effects are the `total_requests`
bump and the SQLite row's own hit-column bump. -/
theorem C10_unparseable_value_is_tier_miss_witness :
    CacheService.get demoParse unparseableState "k" 10 =
      (none,
       { unparseableState with
           sqlite := some ([("k",
             { value_json := "junk2", created_at := 0, expires_at := 1000,
               hits := 3 })].map (fun r =>
             if r.1 == "k" then (r.1, { r.2 with hits := 3 + 1 }) else r))
           stats := { unparseableState.stats with
             total_requests := unparseableState.stats.total_requests + 1 } }) :=
  (C10_unparseable_value_is_tier_miss demoParse).2 unparseableState "k" "junk"
    [("k", (⟨"junk2", 0, 1000, 3⟩ : SqliteRow))]
    (⟨"junk2", 0, 1000, 3⟩ : SqliteRow)
    10 rfl rfl rfl rfl rfl rfl

/-- Witness for C9: an entry written at time 100 with TTL 60 is a hit at
time 159 and at time 160 is a miss that removes the entry. -/
theorem C9_memory_tier_expiry_witness :
    (get_from_memory (set_memory memOnlyState "k" Json.null 100) "k" 159).1
      = some Json.null ∧
    (get_from_memory (set_memory memOnlyState "k" Json.null 100) "k" 160).1
      = none ∧
    lruLookup
      ((get_from_memory (set_memory memOnlyState "k" Json.null 100) "k"
        160).2).memory "k" = none :=
  ⟨(C9_memory_tier_expiry memOnlyState "k" Json.null 100 (by decide) rfl).1
      159 (by decide),
   ((C9_memory_tier_expiry memOnlyState "k" Json.null 100 (by decide) rfl).2
      160 (by decide)).1,
   ((C9_memory_tier_expiry memOnlyState "k" Json.null 100 (by decide) rfl).2
      160 (by decide)).2⟩

/-! ## Persistent tier writes (`CacheRepo::set`) -/

/-- The SQL upsert inside `CacheRepo::set`: insert
`(key, value, now, now + ttl_days days, 0)`; on key conflict overwrite
`response_json`, `created_at`, `expires_at` — but not `hits`.
`Duration::days(d)` is `d * 86400` seconds. -/
def CacheRepo.upsert (ttl_days : Int) (db : List (String × SqliteRow))
    (key value_json : String) (now : Int) : List (String × SqliteRow) :=
  if db.any (fun r => r.1 == key) then
    db.map (fun r =>
      if r.1 == key then
        (r.1,
         { r.2 with
             value_json := value_json
             created_at := now
             expires_at := now + ttl_days * 86400 })
      else r)
  else
    db ++ [(key,
      { value_json := value_json
        created_at := now
        expires_at := now + ttl_days * 86400
        hits := 0 })]

/-- `CacheRepo::cleanup_if_needed`: a no-op when `max_size_bytes` is zero
or the database size is within budget; otherwise deletes the 500 oldest
rows by `created_at`.  The on-disk file size is environmental, so it is
the `dbSize` oracle parameter. -/
def cleanup_if_needed (max_size_bytes : Nat)
    (dbSize : List (String × SqliteRow) → Nat)
    (db : List (String × SqliteRow)) : List (String × SqliteRow) :=
  if max_size_bytes = 0 then db
  else if dbSize db ≤ max_size_bytes then db
  else
    let victims := ((db.mergeSort
      (fun a b => a.2.created_at ≤ b.2.created_at)).take 500).map
        (fun r => r.1)
    db.filter (fun r => !(victims.contains r.1))

/-- `CacheRepo::set`: the upsert followed by `cleanup_if_needed`. -/
def CacheRepo.set (ttl_days : Int) (max_size_bytes : Nat)
    (dbSize : List (String × SqliteRow) → Nat)
    (db : List (String × SqliteRow)) (key value_json : String) (now : Int) :
    List (String × SqliteRow) :=
  cleanup_if_needed max_size_bytes dbSize
    (CacheRepo.upsert ttl_days db key value_json now)

theorem find?_map_ite (db : List (String × SqliteRow)) (key : String)
    (g : SqliteRow → SqliteRow) :
    ((db.map (fun r => if r.1 == key then (r.1, g r.2) else r)).find?
        (fun r => r.1 == key)).map (fun r => r.2) =
      ((db.find? (fun r => r.1 == key)).map (fun r => r.2)).map g := by
  induction db with
  | nil => rfl
  | cons r rest ih =>
    by_cases h : (r.1 == key) = true
    · simp [List.find?, h]
    · have h' : (r.1 == key) = false := by simpa using h
      rw [List.map_cons,
        List.find?_cons_of_neg _ (by simp [h']),
        List.find?_cons_of_neg _ (by simp [h'])]
      exact ih

/-- C8: a `set` on a key already present overwrites `value_json`,
`created_at` and `expires_at` (to `now + ttl_days` days) but leaves the
row's `hits` counter unchanged — provided the size-pressure cleanup does
not fire (size checking disabled or size within budget). -/
theorem C8_set_preserves_hits (ttl_days : Int) (max_size_bytes : Nat)
    (dbSize : List (String × SqliteRow) → Nat)
    (db : List (String × SqliteRow)) (key value_json : String) (now : Int)
    (row : SqliteRow)
    (hrow : (db.find? (fun r => r.1 == key)).map (fun r => r.2) = some row)
    (hquiet : max_size_bytes = 0 ∨
      dbSize (CacheRepo.upsert ttl_days db key value_json now)
        ≤ max_size_bytes) :
    ((CacheRepo.set ttl_days max_size_bytes dbSize db key value_json
        now).find? (fun r => r.1 == key)).map (fun r => r.2) =
      some { value_json := value_json, created_at := now,
             expires_at := now + ttl_days * 86400, hits := row.hits } := by
  have hclean : CacheRepo.set ttl_days max_size_bytes dbSize db key
      value_json now = CacheRepo.upsert ttl_days db key value_json now := by
    unfold CacheRepo.set cleanup_if_needed
    rcases hquiet with h | h
    · rw [if_pos h]
    · by_cases h0 : max_size_bytes = 0
      · rw [if_pos h0]
      · rw [if_neg h0, if_pos h]
  have hany : db.any (fun r => r.1 == key) = true := by
    obtain ⟨pr, hfind⟩ : ∃ pr, db.find? (fun r => r.1 == key) = some pr := by
      cases hf : db.find? (fun r => r.1 == key) with
      | none => rw [hf] at hrow; simp at hrow
      | some pr => exact ⟨pr, rfl⟩
    have hp := List.find?_some hfind
    exact List.any_eq_true.mpr ⟨pr, List.mem_of_find?_eq_some hfind, hp⟩
  rw [hclean]
  unfold CacheRepo.upsert
  rw [if_pos hany]
  rw [find?_map_ite db key (fun q =>
    { q with
        value_json := value_json
        created_at := now
        expires_at := now + ttl_days * 86400 })]
  rw [hrow]
  rfl

/-- Witness for C8 at a one-row database: the upsert refreshes value and
timestamps while `hits` stays 7. -/
theorem C8_set_preserves_hits_witness :
    ((CacheRepo.set 30 0 (fun _ => 0)
        [("k", (⟨"old", 1, 2, 7⟩ : SqliteRow))] "k" "new" 100).find?
        (fun r => r.1 == "k")).map (fun r => r.2) =
      some { value_json := "new", created_at := 100,
             expires_at := 100 + 30 * 86400, hits := 7 } :=
  C8_set_preserves_hits 30 0 (fun _ => 0)
    [("k", (⟨"old", 1, 2, 7⟩ : SqliteRow))] "k" "new" 100
    (⟨"old", 1, 2, 7⟩ : SqliteRow) rfl (Or.inl rfl)

/-! ## Generation router (`src/services/ai_service.rs`,
`src/handlers/chat.rs`) -/

/-- `src/services/search_service.rs`: `SearchResult`. -/
structure SearchResult where
  title : String
  url : String
  snippet : String
deriving Repr, DecidableEq

/-- `src/config.rs`: `OpenRouterSettings`. -/
structure OpenRouterSettings where
  api_key : String
  base_url : String
  default_model : String
deriving Repr, DecidableEq

/-- Rust's `str::trim` (leading and trailing whitespace stripped),
modelled over the character list. -/
def strTrim (s : String) : String :=
  String.mk (((s.data.dropWhile Char.isWhitespace).reverse.dropWhile
    Char.isWhitespace).reverse)

/-- Outcome of the HTTP POST in `cloud_model_generate`, as observed
through reqwest's `send` / `error_for_status` / `json::<Value>` chain:
either a transport error, or a status code together with the result of
JSON-decoding the body. -/
inductive HttpOutcome where
  | transportError (msg : String)
  | response (status : Nat) (decoded : Except String Json)

/-- reqwest's `error_for_status`: errors exactly on client (4xx) and
server (5xx) status codes. -/
def statusIsError (status : Nat) : Bool :=
  400 ≤ status && status ≤ 599

/-- External collaborators of the generation paths: the local inference
engine (`AIModel::chat_with_params`), the search backend, the cloud HTTP
client, serde's JSON rendering, UUID generation and the clock. -/
structure GenEnv where
  localChat : String → Option String → ℚ → Nat → Except String String
  searchFn : String → Except String (List SearchResult)
  cloudPost : String → Json → HttpOutcome
  renderJson : Json → String
  freshUuid : Nat
  nowTs : Int

/-- Modelled from the spec: `ChatResponse::new` (the `crate::models`
module is not under `src/`) normalizes a fresh response — §4.7: freshly
assigned id, `cache_hit = false`, `cache_source = None`. -/
def ChatResponse.new (env : GenEnv) (response : String)
    (conversation_id : Nat) : ChatResponse :=
  { response := response
    conversation_id := conversation_id
    cache_hit := false
    cache_source := none
    timestamp := env.nowTs }

/-- `serde_json::Value::get` with a string key (object field access). -/
def Json.getField : Json → String → Option Json
  | Json.obj fields, name =>
    (fields.find? (fun f => f.1 == name)).map (fun f => f.2)
  | _, _ => none

/-- `serde_json::Value::get` with an index (array element access). -/
def Json.getIdx : Json → Nat → Option Json
  | Json.arr elems, i => elems.get? i
  | _, _ => none

/-- `serde_json::Value::as_str`. -/
def Json.asStr : Json → Option String
  | Json.str s => some s
  | _ => none

/-- The `choices[0].message.content` extraction chain of
`cloud_model_generate`. -/
def extractContent (response : Json) : Option String :=
  ((((response.getField "choices").bind (fun c => c.getIdx 0)).bind
    (fun c => c.getField "message")).bind
    (fun m => m.getField "content")).bind Json.asStr

/-- `AIService::local_model_generate`. -/
def AIService.local_model_generate (env : GenEnv) (cfg : AiConfig)
    (req : ChatRequest) : Except String ChatResponse :=
  let conversation_id := req.conversation_id.getD env.freshUuid
  let temperature := req.temperature.getD cfg.temperature
  let max_tokens := req.max_tokens.getD cfg.max_tokens
  match env.localChat req.message (some (toString conversation_id))
      temperature max_tokens with
  | Except.ok response =>
    Except.ok (ChatResponse.new env response conversation_id)
  | Except.error e => Except.error e

/-- The `json!` enrichment block of `enrich_and_generate`: an object with
one `sources` array. -/
def sourcesJson (search_results : List SearchResult) : Json :=
  Json.obj [("sources", Json.arr (search_results.map (fun result =>
    Json.obj [("title", Json.str result.title),
              ("url", Json.str result.url),
              ("snippet", Json.str result.snippet)])))]

/-- `AIService::enrich_and_generate`: empty results fall back to the local
path; otherwise the rendered sources block is appended to the message and
the enriched request is generated locally. -/
def AIService.enrich_and_generate (env : GenEnv) (cfg : AiConfig)
    (req : ChatRequest) (search_results : List SearchResult) :
    Except String ChatResponse :=
  if search_results.isEmpty then
    AIService.local_model_generate env cfg req
  else
    let enriched_message := req.message
      ++ "\n\nAdditional context (sources): "
      ++ env.renderJson (sourcesJson search_results)
    AIService.local_model_generate env cfg { req with message := enriched_message }

/-- The JSON body POSTed by `cloud_model_generate`. -/
def cloudRequestBody (cfg : AiConfig) (openrouter : OpenRouterSettings)
    (req : ChatRequest) : Json :=
  Json.obj
    [("model", Json.str (req.model.getD openrouter.default_model)),
     ("messages", Json.arr [Json.obj
       [("role", Json.str "user"), ("content", Json.str req.message)]]),
     ("temperature", Json.num (req.temperature.getD cfg.temperature)),
     ("max_tokens", Json.num ((req.max_tokens.getD cfg.max_tokens : Nat) : ℚ))]

/-- `AIService::cloud_model_generate`: with no configured key, downgrade
to the enrichment path over the already-fetched search results; otherwise
POST to `{base_url}/chat/completions`, erroring on transport failure,
error status, or undecodable body, and extract
`choices[0].message.content`, defaulting to a placeholder string when the
extraction fails. -/
def AIService.cloud_model_generate (env : GenEnv) (cfg : AiConfig)
    (openrouter : OpenRouterSettings) (req : ChatRequest)
    (search_results : List SearchResult) : Except String ChatResponse :=
  if strTrim openrouter.api_key = "" then
    AIService.enrich_and_generate env cfg req search_results
  else
    match env.cloudPost (openrouter.base_url ++ "/chat/completions")
        (cloudRequestBody cfg openrouter req) with
    | HttpOutcome.transportError e => Except.error e
    | HttpOutcome.response status decoded =>
      if statusIsError status then
        Except.error ("HTTP status error: " ++ toString status)
      else
        match decoded with
        | Except.error e => Except.error e
        | Except.ok payload =>
          let content :=
            (extractContent payload).getD "No response from OpenRouter"
          let conversation_id := req.conversation_id.getD env.freshUuid
          Except.ok (ChatResponse.new env content conversation_id)

/-- Result of the chat handler's routing `match`, together with the
number of calls made to the Search collaborator. -/
structure RouterResult where
  response : Except String ChatResponse
  searchCalls : Nat

/-- `src/handlers/chat.rs` lines 79–96: complexity analysis and routing
(Low → local, Medium → search then enrich, High → search then cloud; a
search error propagates). -/
def routeChat (env : GenEnv) (cfg : AiConfig)
    (openrouter : OpenRouterSettings) (req : ChatRequest) : RouterResult :=
  match ModelService.analyze_complexity req with
  | Complexity.Low =>
    { response := AIService.local_model_generate env cfg req
      searchCalls := 0 }
  | Complexity.Medium =>
    match env.searchFn req.message with
    | Except.ok results =>
      { response := AIService.enrich_and_generate env cfg req results
        searchCalls := 1 }
    | Except.error e => { response := Except.error e, searchCalls := 1 }
  | Complexity.High =>
    match env.searchFn req.message with
    | Except.ok results =>
      { response := AIService.cloud_model_generate env cfg openrouter req results
        searchCalls := 1 }
    | Except.error e => { response := Except.error e, searchCalls := 1 }

/-- C4: for a High-complexity request with no cloud API key configured,
the router's result is exactly the Medium enrichment path applied to the
already-fetched search results, and the Search collaborator is called
exactly once. -/
theorem C4_high_without_key_downgrades (env : GenEnv) (cfg : AiConfig)
    (openrouter : OpenRouterSettings) (req : ChatRequest)
    (results : List SearchResult)
    (hkey : strTrim openrouter.api_key = "")
    (hhigh : ModelService.analyze_complexity req = Complexity.High)
    (hsearch : env.searchFn req.message = Except.ok results) :
    routeChat env cfg openrouter req =
      { response := AIService.enrich_and_generate env cfg req results
        searchCalls := 1 } := by
  unfold routeChat
  rw [hhigh, hsearch]
  show ({ response := AIService.cloud_model_generate env cfg openrouter req results
          searchCalls := 1 } : RouterResult) = _
  unfold AIService.cloud_model_generate
  rw [if_pos hkey]

/-- C5 (amended): with a configured key, a transport failure, a 4xx/5xx
status, or a body that fails JSON decoding each yield an error; but a
decoded body from which `choices[0].message.content` cannot be extracted
yields a SUCCESSFUL response carrying the placeholder text `"No response
from OpenRouter"` (the code's `unwrap_or`), contrary to the unamended
claim. -/
theorem C5_cloud_error_handling (env : GenEnv) (cfg : AiConfig)
    (openrouter : OpenRouterSettings) (req : ChatRequest)
    (search_results : List SearchResult)
    (hkey : ¬ strTrim openrouter.api_key = "") :
    (∀ e, env.cloudPost (openrouter.base_url ++ "/chat/completions")
        (cloudRequestBody cfg openrouter req) = HttpOutcome.transportError e →
      AIService.cloud_model_generate env cfg openrouter req search_results
        = Except.error e) ∧
    (∀ status decoded,
      env.cloudPost (openrouter.base_url ++ "/chat/completions")
        (cloudRequestBody cfg openrouter req)
        = HttpOutcome.response status decoded →
      statusIsError status = true →
      AIService.cloud_model_generate env cfg openrouter req search_results
        = Except.error ("HTTP status error: " ++ toString status)) ∧
    (∀ status e,
      env.cloudPost (openrouter.base_url ++ "/chat/completions")
        (cloudRequestBody cfg openrouter req)
        = HttpOutcome.response status (Except.error e) →
      statusIsError status = false →
      AIService.cloud_model_generate env cfg openrouter req search_results
        = Except.error e) ∧
    (∀ status payload,
      env.cloudPost (openrouter.base_url ++ "/chat/completions")
        (cloudRequestBody cfg openrouter req)
        = HttpOutcome.response status (Except.ok payload) →
      statusIsError status = false →
      extractContent payload = none →
      AIService.cloud_model_generate env cfg openrouter req search_results
        = Except.ok (ChatResponse.new env "No response from OpenRouter"
            (req.conversation_id.getD env.freshUuid))) := by
  refine ⟨?_, ?_, ?_, ?_⟩
  · intro e hpost
    unfold AIService.cloud_model_generate
    rw [if_neg hkey, hpost]
  · intro status decoded hpost hst
    unfold AIService.cloud_model_generate
    rw [if_neg hkey, hpost]
    simp [hst]
  · intro status e hpost hst
    unfold AIService.cloud_model_generate
    rw [if_neg hkey, hpost]
    simp [hst]
  · intro status payload hpost hst hext
    unfold AIService.cloud_model_generate
    rw [if_neg hkey, hpost]
    simp [hst, hext]

/-- An environment whose cloud endpoint answers 200 with the decodable
body given by an object with no fields. -/
def cloudEnvEmptyBody : GenEnv :=
  { localChat := fun _ _ _ _ => Except.error "unused"
    searchFn := fun _ => Except.ok []
    cloudPost := fun _ _ => HttpOutcome.response 200 (Except.ok (Json.obj []))
    renderJson := fun _ => ""
    freshUuid := 7
    nowTs := 0 }

/-- An environment whose cloud endpoint always fails at transport
level. -/
def cloudEnvDown : GenEnv :=
  { localChat := fun _ _ _ _ => Except.error "unused"
    searchFn := fun _ => Except.ok []
    cloudPost := fun _ _ => HttpOutcome.transportError "boom"
    renderJson := fun _ => ""
    freshUuid := 7
    nowTs := 0 }

/-- OpenRouter settings with a configured (non-blank) key. -/
def keyedSettings : OpenRouterSettings :=
  { api_key := "k", base_url := "https://api.example", default_model := "m" }

/-- A minimal request leaving every optional field unset. -/
def smallReq : ChatRequest :=
  { message := "hi"
    conversation_id := none
    model := none
    temperature := none
    max_tokens := none
    cache_bypass := none
    stream := none }

/-- C5 (counterexample): with a configured key, status 200 and a decoded
body with no `choices`, the call returns `Ok` with the placeholder text —
a successful `ChatResponse` despite the malformed body, refuting the
claim that such a body always yields an error. -/
theorem C5_cloud_error_handling_counterexample :
    AIService.cloud_model_generate cloudEnvEmptyBody ⟨"m", 7/10, 128⟩
      keyedSettings smallReq [] =
      Except.ok
        { response := "No response from OpenRouter"
          conversation_id := 7
          cache_hit := false
          cache_source := none
          timestamp := 0 } := by
  rfl

/-- Witness for the amended C5: a transport failure with a configured key
yields exactly that error. -/
theorem C5_cloud_error_handling_witness :
    ¬ strTrim keyedSettings.api_key = "" ∧
    AIService.cloud_model_generate cloudEnvDown ⟨"m", 7/10, 128⟩
      keyedSettings smallReq [] = Except.error "boom" :=
  ⟨by decide,
   (C5_cloud_error_handling cloudEnvDown ⟨"m", 7/10, 128⟩ keyedSettings
      smallReq [] (by decide)).1 "boom" rfl⟩

/-- An environment for the router witness: search yields one result. -/
def demoEnv : GenEnv :=
  { localChat := fun m _ _ _ => Except.ok ("echo: " ++ m)
    searchFn := fun _ => Except.ok [⟨"t", "u", "s"⟩]
    cloudPost := fun _ _ => HttpOutcome.transportError "offline"
    renderJson := fun _ => "rendered"
    freshUuid := 7
    nowTs := 0 }

/-- OpenRouter settings with a blank key (the repository default). -/
def noKeySettings : OpenRouterSettings :=
  { api_key := ""
    base_url := "https://openrouter.ai/api/v1"
    default_model := "openrouter/auto" }

set_option maxRecDepth 8000 in
/-- Witness for C4 at an 800-character request with no key configured:
the routing result is the enrichment path over the fetched results, with
one search call. -/
theorem C4_high_without_key_downgrades_witness :
    routeChat demoEnv ⟨"m", 7/10, 128⟩ noKeySettings (boundaryReq 800) =
      { response := AIService.enrich_and_generate demoEnv ⟨"m", 7/10, 128⟩
          (boundaryReq 800) [⟨"t", "u", "s"⟩]
        searchCalls := 1 } :=
  C4_high_without_key_downgrades demoEnv ⟨"m", 7/10, 128⟩ noKeySettings
    (boundaryReq 800) [⟨"t", "u", "s"⟩] (by decide) (by decide) rfl

end SelfcareAI
